import Mathlib

/-!
Verification of the ipygany widget layer (src/src/widget.ts) against its
natural-language specification.

The file shallowly embeds the widget-layer code. The core classes imported by
widget.ts from ./core (Scene, Block, Effect, the concrete effects) are not part
of the sources at hand; their state is modelled from the specification, each
such definition carrying a doc comment starting with "Modelled from the spec:".
Every other definition is translated directly from widget.ts.

Numbers travelling through the widget layer (radii, min/max/value, alpha) are
modelled as rationals; byte buffers as lists of naturals.
-/

namespace Odysis

/-- A raw byte buffer as received by the widget transport; mirrors the
`data.data.buffer` object of the serialized payload. -/
structure WireBuffer where
  buffer : List Nat
deriving DecidableEq, Repr

/-- The serialized payload handed to a deserializer: `data.data` is the byte
buffer object. -/
structure WireData where
  data : WireBuffer
deriving DecidableEq, Repr

/-- The element type of a typed-array view. -/
inductive TypedArrayKind where
  | float32
  | uint32
deriving DecidableEq, Repr

/-- A typed-array view over a byte buffer: the element kind together with the
underlying bytes. Constructing a view does not copy: the `buffer` field holds
the very byte buffer it was built over. -/
structure TypedView where
  kind : TypedArrayKind
  buffer : List Nat
deriving DecidableEq, Repr

/-- Embeds `deserialize_float32array` (widget.ts lines 46-48):
`new Float32Array(data.data.buffer)`, a float32 view over the received
byte buffer. -/
def deserialize_float32array (data : WireData) : TypedView :=
  { kind := TypedArrayKind.float32, buffer := data.data.buffer }

/-- Embeds `deserialize_uint32array` (widget.ts lines 50-52):
`new Uint32Array(data.data.buffer)`, a uint32 view over the received
byte buffer. -/
def deserialize_uint32array (data : WireData) : TypedView :=
  { kind := TypedArrayKind.uint32, buffer := data.data.buffer }

/-- Modelled from the spec: core `Component` (src/core/Data is not among the
sources): a named numeric field array. -/
structure Component where
  name : String
  array : List ℚ
deriving DecidableEq, Repr

/-- Modelled from the spec: core `Data` (src/core/Data is not among the
sources): a named ordered group of components. -/
structure Data where
  name : String
  components : List Component
deriving DecidableEq, Repr

/-- Modelled from the spec: the core `Block` state (src/core/Block is not among
the sources): vertices, owned data, default appearance, a bounding-sphere
radius derived from the vertices, and a scale vector set by the scene layer. -/
structure Block where
  vertices : List ℚ
  data : List Data
  defaultColor : String
  defaultAlpha : ℚ
  boundingSphereRadius : ℚ
  scale : ℚ × ℚ × ℚ
deriving DecidableEq, Repr

/-- Modelled from the spec: the core `Scene` holds an ordered collection of
child blocks (src/core/Scene is not among the sources). -/
structure Scene where
  children : List Block
deriving DecidableEq, Repr

/-- Modelled from the spec: `Scene.addChild(block)` appends the block to the
scene's children (spec section 4.8; src/core/Scene is not among the sources). -/
def Scene.addChild (s : Scene) (b : Block) : Scene :=
  { s with children := s.children ++ [b] }

/-- `Math.max` over a list of rationals. On an empty list JavaScript returns
-Infinity, which has no rational counterpart; the claims about this function
only concern non-empty lists, where the result is the list's maximum. -/
def mathMax : List ℚ → ℚ
  | [] => 0
  | x :: xs => xs.foldl max x

/-- Embeds `SceneModel.updateChildren` (widget.ts lines 471-483). The argument
is the list of core blocks of the current children models, as produced by
`this.get('children').map(child => child.block)`. The function computes the
shared uniform scale `1 / Math.max(radii)`, assigns it to every block and adds
each block to the scene. Returns the updated blocks together with the updated
scene (the TypeScript code mutates the block objects in place; by the time the
loop ends, every block held by the scene carries the new scale, which is the
state this value-level embedding returns). -/
def SceneModel.updateChildren (children : List Block) (scene : Scene) :
    List Block × Scene :=
  let boundingSphereRadius := mathMax (children.map Block.boundingSphereRadius)
  let scale : ℚ × ℚ × ℚ :=
    (1 / boundingSphereRadius, 1 / boundingSphereRadius, 1 / boundingSphereRadius)
  let scaled := children.map (fun b => { b with scale := scale })
  (scaled, scaled.foldl Scene.addChild scene)

/-- The raw value of an effect model's `input` attribute as delivered by the
widget transport: a plain string, a list of component names, or null. -/
inductive RawInput where
  | str (s : String)
  | strList (l : List String)
  | nullValue
deriving DecidableEq, Repr

/-- The value actually handed to a core effect as its input: either a raw
string, or an array whose elements are raw attribute values. -/
inductive InputValue where
  | str (s : String)
  | arr (elems : List RawInput)
deriving DecidableEq, Repr

/-- Embeds the `input` getter shared verbatim by IsoColorModel (widget.ts lines
346-350), IsoSurfaceModel (384-388) and ThresholdModel (426-430):
`typeof input == 'string' ? input : [input]` - a string passes through, any
other value is wrapped in a one-element array. -/
def effectInputGetter : RawInput → InputValue
  | RawInput.str s => InputValue.str s
  | RawInput.strList l => InputValue.arr [RawInput.strList l]
  | RawInput.nullValue => InputValue.arr [RawInput.nullValue]

/-- Modelled from the spec: dimension of a bound input (spec section 4.4):
a string selector is a scalar field (dimension 1), a list selector assembles a
vector field (dimension 3). -/
def InputValue.dimension : InputValue → Nat
  | InputValue.str _ => 1
  | InputValue.arr _ => 3

/-- Modelled from the spec: the core `Effect` state (src/core/EffectBlock and
src/core/Effects/effects are not among the sources). An effect is a block
deriving its geometry and appearance from a parent block; it records the
currently bound input, its input dimension, and its numeric parameters.
`setInputLog` records each `setInput` call so that theorems can speak about
whether `setInput` was invoked. -/
structure Effect where
  parent : Block
  vertices : List ℚ
  defaultColor : String
  defaultAlpha : ℚ
  inputDimension : Nat
  boundInput : Option InputValue
  setInputLog : List InputValue
  min : ℚ
  max : ℚ
  value : ℚ
deriving DecidableEq, Repr

/-- Modelled from the spec: `Effect.setInput` while bound re-resolves the
selector and recomputes (spec section 4.4); the call is recorded in the log. -/
def Effect.setInput (e : Effect) (v : InputValue) : Effect :=
  { e with boundInput := some v, setInputLog := e.setInputLog ++ [v] }

/-- Embeds `EffectModel.updateInput` (widget.ts lines 309-313): forwards the
current `input` getter value to the core effect only when the effect's
`inputDimension` is nonzero. The argument `i` is the value of `this.input`,
which for the concrete effect models is the overridden getter
`effectInputGetter`. -/
def EffectModel.updateInput (i : InputValue) (e : Effect) : Effect :=
  if e.inputDimension != 0 then e.setInput i else e

/-- Modelled from the spec: the `IsoColor` constructor binds the given input
and stores min and max; its geometry layers over the parent's (spec section
4.5). -/
def IsoColor.new (parent : Block) (input : InputValue) (mn mx : ℚ) : Effect :=
  { parent := parent, vertices := parent.vertices,
    defaultColor := parent.defaultColor, defaultAlpha := parent.defaultAlpha,
    inputDimension := input.dimension, boundInput := some input,
    setInputLog := [], min := mn, max := mx, value := 0 }

/-- Modelled from the spec: the `IsoSurface` constructor binds the given input
and stores the iso value (spec section 4.6). -/
def IsoSurface.new (parent : Block) (input : InputValue) (v : ℚ) : Effect :=
  { parent := parent, vertices := parent.vertices,
    defaultColor := parent.defaultColor, defaultAlpha := parent.defaultAlpha,
    inputDimension := input.dimension, boundInput := some input,
    setInputLog := [], min := 0, max := 0, value := v }

/-- Modelled from the spec: the `Threshold` constructor binds the given input
and stores min and max (spec section 4.7). -/
def Threshold.new (parent : Block) (input : InputValue) (mn mx : ℚ) : Effect :=
  { parent := parent, vertices := parent.vertices,
    defaultColor := parent.defaultColor, defaultAlpha := parent.defaultAlpha,
    inputDimension := input.dimension, boundInput := some input,
    setInputLog := [], min := mn, max := mx, value := 0 }

/-- Embeds `IsoColorModel.createBlock` (widget.ts lines 352-354):
`new IsoColor(this.parent.block, this.input, this.min, this.max)`, where
`this.input` is the overridden getter. -/
def IsoColorModel.createBlock (parent : Block) (raw : RawInput) (mn mx : ℚ) :
    Effect :=
  IsoColor.new parent (effectInputGetter raw) mn mx

/-- Embeds `IsoSurfaceModel.createBlock` (widget.ts lines 390-392):
`new IsoSurface(this.parent.block, this.input, this.value)`. -/
def IsoSurfaceModel.createBlock (parent : Block) (raw : RawInput) (v : ℚ) :
    Effect :=
  IsoSurface.new parent (effectInputGetter raw) v

/-- Embeds `ThresholdModel.createBlock` (widget.ts lines 432-434):
`new Threshold(this.parent.block, this.input, this.min, this.max)`. -/
def ThresholdModel.createBlock (parent : Block) (raw : RawInput) (mn mx : ℚ) :
    Effect :=
  Threshold.new parent (effectInputGetter raw) mn mx

/-- Embeds the `change:input` path for the concrete effect models: the
inherited `EffectModel.updateInput` reads `this.input` through dynamic
dispatch, which for IsoColorModel, IsoSurfaceModel and ThresholdModel is the
overridden wrapping getter. -/
def IsoColorModel.updateInput (raw : RawInput) (e : Effect) : Effect :=
  EffectModel.updateInput (effectInputGetter raw) e

/-- Embeds the `change:array` listener registered in `ComponentModel.initialize`
(widget.ts line 105): `this.component.array = this.get('array')`. -/
def ComponentModel.onChangeArray (arr : List ℚ) (c : Component) : Component :=
  { c with array := arr }

/-- Embeds the `change:default_color` listener of `BlockModel.initEventListeners`
(widget.ts line 196): `this.block.defaultColor = this.defaultColor`. -/
def BlockModel.onChangeDefaultColor (color : String) (b : Block) : Block :=
  { b with defaultColor := color }

/-- Embeds the `change:default_alpha` listener of `BlockModel.initEventListeners`
(widget.ts line 197): `this.block.defaultAlpha = this.defaultAlpha`. -/
def BlockModel.onChangeDefaultAlpha (alpha : ℚ) (b : Block) : Block :=
  { b with defaultAlpha := alpha }

/-- Embeds the `change:vertices` listener of `PolyMeshModel.initEventListeners`
(widget.ts line 237): `this.block.vertices = this.vertices`. -/
def PolyMeshModel.onChangeVertices (v : List ℚ) (b : Block) : Block :=
  { b with vertices := v }

/-- Embeds the `change:min` listener of `IsoColorModel.initEventListeners`
(widget.ts line 359): `this.block.min = this.min`. -/
def IsoColorModel.onChangeMin (mn : ℚ) (e : Effect) : Effect :=
  { e with min := mn }

/-- Embeds the `change:max` listener of `IsoColorModel.initEventListeners`
(widget.ts line 360): `this.block.max = this.max`. -/
def IsoColorModel.onChangeMax (mx : ℚ) (e : Effect) : Effect :=
  { e with max := mx }

/-- Embeds the `change:value` listener of `IsoSurfaceModel.initEventListeners`
(widget.ts line 397): `this.block.value = this.value`. -/
def IsoSurfaceModel.onChangeValue (v : ℚ) (e : Effect) : Effect :=
  { e with value := v }

/-- Embeds the `change:min` listener of `ThresholdModel.initEventListeners`
(widget.ts line 439): `this.block.min = this.min`. -/
def ThresholdModel.onChangeMin (mn : ℚ) (e : Effect) : Effect :=
  { e with min := mn }

/-- Embeds the `change:max` listener of `ThresholdModel.initEventListeners`
(widget.ts line 440): `this.block.max = this.max`. -/
def ThresholdModel.onChangeMax (mx : ℚ) (e : Effect) : Effect :=
  { e with max := mx }

/-- The widget model classes defined in widget.ts. -/
inductive ModelClass where
  | component
  | data
  | block
  | polyMesh
  | tetraMesh
  | effect
  | isoColor
  | isoSurface
  | threshold
  | scene
deriving DecidableEq, Repr

/-- All widget model classes of widget.ts. -/
def allModelClasses : List ModelClass :=
  [ModelClass.component, ModelClass.data, ModelClass.block,
   ModelClass.polyMesh, ModelClass.tetraMesh, ModelClass.effect,
   ModelClass.isoColor, ModelClass.isoSurface, ModelClass.threshold,
   ModelClass.scene]

/-- The attribute names each model class registers a change listener for in
widget.ts, collecting the `this.on('change:...')` registrations along each
class's `initialize`/`initEventListeners` chain:
ComponentModel.initialize (line 105); BlockModel.initEventListeners (196-197);
PolyMeshModel (237) and TetraMeshModel, which inherits PolyMeshModel's
listeners; EffectModel (306); IsoColorModel (359-360); IsoSurfaceModel (397);
ThresholdModel (439-440); SceneModel.initialize (468). DataModel registers no
listener. SceneView additionally registers `change:background_color` on the
scene model, but only from the view layer after display. -/
def registeredAttrs : ModelClass → List String
  | ModelClass.component => ["array"]
  | ModelClass.data => []
  | ModelClass.block => ["default_color", "default_alpha"]
  | ModelClass.polyMesh => ["default_color", "default_alpha", "vertices"]
  | ModelClass.tetraMesh => ["default_color", "default_alpha", "vertices"]
  | ModelClass.effect => ["default_color", "default_alpha", "input"]
  | ModelClass.isoColor =>
      ["default_color", "default_alpha", "input", "min", "max"]
  | ModelClass.isoSurface =>
      ["default_color", "default_alpha", "input", "value"]
  | ModelClass.threshold =>
      ["default_color", "default_alpha", "input", "min", "max"]
  | ModelClass.scene => ["children"]

/-- Whether any model class of widget.ts registers a change listener for the
given attribute name. -/
def someClassListensOn (attr : String) : Bool :=
  allModelClasses.any fun c => (registeredAttrs c).contains attr

/-- The numeric-buffer deserializers declared in the static `serializers`
tables of widget.ts: ComponentModel (line 112), BlockModel (line 206, inherited
by the mesh and effect models), PolyMeshModel (line 244, inherited by
TetraMeshModel), TetraMeshModel (line 277). Attributes deserialized with
`unpack_models` are not numeric buffers and are omitted. -/
def bufferDeserializer : ModelClass → String → Option (WireData → TypedView)
  | ModelClass.component, "array" => some deserialize_float32array
  | ModelClass.block, "vertices" => some deserialize_float32array
  | ModelClass.polyMesh, "vertices" => some deserialize_float32array
  | ModelClass.polyMesh, "triangle_indices" => some deserialize_uint32array
  | ModelClass.tetraMesh, "vertices" => some deserialize_float32array
  | ModelClass.tetraMesh, "triangle_indices" => some deserialize_uint32array
  | ModelClass.tetraMesh, "tetrahedron_indices" => some deserialize_uint32array
  | ModelClass.effect, "vertices" => some deserialize_float32array
  | ModelClass.isoColor, "vertices" => some deserialize_float32array
  | ModelClass.isoSurface, "vertices" => some deserialize_float32array
  | ModelClass.threshold, "vertices" => some deserialize_float32array
  | _, _ => none

/-- Modelled from the spec: the core `TetraMesh` block state (src/core/MeshBlock
is not among the sources): vertices, a surface triangulation, volumetric
tetrahedron connectivity, and field data. -/
structure TetraMesh where
  vertices : List ℚ
  triangleIndices : List Nat
  tetrahedronIndices : List Nat
  data : List Data
deriving DecidableEq, Repr

/-- The attributes of a TetraMeshModel read by its `createBlock`. -/
structure TetraMeshAttributes where
  vertices : List ℚ
  triangle_indices : List Nat
  tetrahedron_indices : List Nat
  data : List Data
deriving DecidableEq, Repr

/-- Embeds `TetraMeshModel.createBlock` (widget.ts lines 262-267):
`new TetraMesh(this.vertices, this.triangleIndices, this.tetrahedronIndices,
this.data, ...)` - both index arrays are taken directly from the model's
attributes. -/
def TetraMeshModel.createBlock (m : TetraMeshAttributes) : TetraMesh :=
  { vertices := m.vertices, triangleIndices := m.triangle_indices,
    tetrahedronIndices := m.tetrahedron_indices, data := m.data }

/-- The attributes of a BlockModel read by its `initialize`. -/
structure BlockAttributes where
  default_color : String
  default_alpha : ℚ
deriving DecidableEq, Repr

/-- Embeds `BlockModel.initialize` (widget.ts lines 166-173): after
`createBlock()` produces the core block (passed here as `created`), only
`this.block.defaultColor = this.defaultColor` is executed; the `default_alpha`
attribute is not applied at initialization. -/
def BlockModel.initializeBlock (attrs : BlockAttributes) (created : Block) : Block :=
  { created with defaultColor := attrs.default_color }

/-- The observable steps of `SceneView.render` (widget.ts lines 501-512) and of
the `SceneView.initEventListeners` call it makes (lines 514-518), in program
order. -/
inductive RenderEvent where
  | addCssClass
  | createRenderer
  | displayedResolved
  | rendererInitialize
  | setBackgroundColor
  | installResizeListener
  | installBackgroundColorListener
deriving DecidableEq, Repr

/-- Embeds the execution order of `SceneView.render` (widget.ts lines 501-512):
the CSS class is added and the renderer constructed synchronously; then, inside
the resolution of the `displayed` promise, `renderer.initialize()` runs, the
background color is applied, and `initEventListeners` installs the resize
listener and the `change:background_color` listener (lines 514-518). -/
def SceneView.renderTrace : List RenderEvent :=
  [RenderEvent.addCssClass, RenderEvent.createRenderer,
   RenderEvent.displayedResolved, RenderEvent.rendererInitialize,
   RenderEvent.setBackgroundColor, RenderEvent.installResizeListener,
   RenderEvent.installBackgroundColorListener]

/-- A concrete block with the given bounding-sphere radius, used as test data
in witnesses. -/
def testBlock (r : ℚ) : Block :=
  { vertices := [], data := [], defaultColor := "", defaultAlpha := 1,
    boundingSphereRadius := r, scale := (1, 1, 1) }

/-- A scene with no children yet, used as test data in witnesses. -/
def emptyScene : Scene := { children := [] }

/-- A concrete effect in the unbound state (inputDimension = 0), used as test
data in witnesses. -/
def unboundEffect : Effect :=
  { parent := testBlock 1, vertices := [], defaultColor := "",
    defaultAlpha := 1, inputDimension := 0, boundInput := none,
    setInputLog := [], min := 0, max := 0, value := 0 }

/-- A concrete effect bound to a scalar input (inputDimension = 1), used as
test data in witnesses. -/
def boundEffect : Effect :=
  { unboundEffect with
    inputDimension := 1,
    boundInput := some (InputValue.str "f") }

/-- Folding `Scene.addChild` over a list of blocks appends the list to the
scene's children. -/
theorem foldl_addChild_children (l : List Block) (s : Scene) :
    (l.foldl Scene.addChild s).children = s.children ++ l := by
  induction l generalizing s with
  | nil => simp
  | cons b t ih => simp [Scene.addChild, ih]

/-- C1: for every non-empty children list, `SceneModel.updateChildren` computes
a single uniform scale equal to 1 / max(boundingSphereRadius over all children)
and assigns that same scale vector to every child block; the scene receives
exactly these scaled blocks. -/
theorem updateChildren_uniform_scale (children : List Block) (scene : Scene)
    (_h : children ≠ []) :
    (SceneModel.updateChildren children scene).2.children
      = scene.children ++ (SceneModel.updateChildren children scene).1 ∧
    ∀ b ∈ (SceneModel.updateChildren children scene).1,
      b.scale = (1 / mathMax (children.map Block.boundingSphereRadius),
                 1 / mathMax (children.map Block.boundingSphereRadius),
                 1 / mathMax (children.map Block.boundingSphereRadius)) := by
  refine ⟨foldl_addChild_children _ _, ?_⟩
  intro b hb
  simp only [SceneModel.updateChildren, List.mem_map] at hb
  obtain ⟨a, _, rfl⟩ := hb
  rfl

/-- Witness for C1: children with bounding-sphere radii 2, 4 and 1 all receive
the uniform scale 1/4 = 0.25. -/
theorem updateChildren_uniform_scale_witness :
    ([testBlock 2, testBlock 4, testBlock 1] : List Block) ≠ [] ∧
    ∀ b ∈ (SceneModel.updateChildren [testBlock 2, testBlock 4, testBlock 1]
            emptyScene).1,
      b.scale = (1/4, 1/4, 1/4) := by
  refine ⟨by decide, ?_⟩
  have h := (updateChildren_uniform_scale
    [testBlock 2, testBlock 4, testBlock 1] emptyScene (by decide)).2
  have hm : mathMax (([testBlock 2, testBlock 4, testBlock 1] :
      List Block).map Block.boundingSphereRadius) = 4 := by
    simp [mathMax, testBlock, List.foldl]
    norm_num [max_def]
  rw [hm] at h
  norm_num at h
  exact h

/-- C2: while the core effect is unbound (inputDimension = 0), a change to the
input attribute is a no-op: `EffectModel.updateInput` leaves the effect
untouched (no setInput call recorded, geometry and appearance unchanged);
setInput is forwarded exactly when inputDimension is nonzero. -/
theorem updateInput_unbound_noop (e : Effect) (i : InputValue) :
    (e.inputDimension = 0 →
      EffectModel.updateInput i e = e ∧
      (EffectModel.updateInput i e).setInputLog = e.setInputLog ∧
      (EffectModel.updateInput i e).vertices = e.vertices ∧
      (EffectModel.updateInput i e).defaultColor = e.defaultColor ∧
      (EffectModel.updateInput i e).defaultAlpha = e.defaultAlpha) ∧
    (e.inputDimension ≠ 0 →
      EffectModel.updateInput i e = Effect.setInput e i) := by
  constructor
  · intro h
    simp [EffectModel.updateInput, h]
  · intro h
    simp [EffectModel.updateInput, h]

/-- Witness for C2: on a concrete unbound effect the input change is a no-op,
and on a concrete bound effect the input is forwarded via setInput. -/
theorem updateInput_unbound_noop_witness :
    EffectModel.updateInput (InputValue.str "g") unboundEffect = unboundEffect ∧
    EffectModel.updateInput (InputValue.str "g") boundEffect
      = Effect.setInput boundEffect (InputValue.str "g") :=
  ⟨((updateInput_unbound_noop unboundEffect (InputValue.str "g")).1 rfl).1,
   (updateInput_unbound_noop boundEffect (InputValue.str "g")).2 (by decide)⟩

/-- C3 counterexample: no model class in widget.ts registers a change listener
for the `data` attribute, although the spec lists `data` among the hooked
mutable properties. -/
theorem no_data_change_listener : someClassListensOn "data" = false := by
  decide

/-- C3 (amended): every model class is covered by the registration table, and
for vertices, default color, default alpha, min, max, value, input selector and
children list the model layer registers a change callback committing the new
value to the corresponding core object; data contents are committed through
ComponentModel's change:array callback, while the Block-level `data` attribute
itself has no change listener. -/
theorem change_listeners_commit :
    (∀ c : ModelClass, c ∈ allModelClasses) ∧
    someClassListensOn "array" = true ∧
    someClassListensOn "vertices" = true ∧
    someClassListensOn "default_color" = true ∧
    someClassListensOn "default_alpha" = true ∧
    someClassListensOn "input" = true ∧
    someClassListensOn "min" = true ∧
    someClassListensOn "max" = true ∧
    someClassListensOn "value" = true ∧
    someClassListensOn "children" = true ∧
    someClassListensOn "data" = false ∧
    (∀ a c, (ComponentModel.onChangeArray a c).array = a) ∧
    (∀ v b, (PolyMeshModel.onChangeVertices v b).vertices = v) ∧
    (∀ s b, (BlockModel.onChangeDefaultColor s b).defaultColor = s) ∧
    (∀ q b, (BlockModel.onChangeDefaultAlpha q b).defaultAlpha = q) ∧
    (∀ q e, (IsoColorModel.onChangeMin q e).min = q) ∧
    (∀ q e, (IsoColorModel.onChangeMax q e).max = q) ∧
    (∀ q e, (IsoSurfaceModel.onChangeValue q e).value = q) ∧
    (∀ q e, (ThresholdModel.onChangeMin q e).min = q) ∧
    (∀ q e, (ThresholdModel.onChangeMax q e).max = q) ∧
    (∀ i e, EffectModel.updateInput i e
        = if e.inputDimension != 0 then e.setInput i else e) ∧
    (∀ ch sc, (SceneModel.updateChildren ch sc).2.children
        = sc.children ++ (SceneModel.updateChildren ch sc).1) := by
  refine ⟨fun c => by cases c <;> simp [allModelClasses],
    by decide, by decide, by decide, by decide, by decide, by decide,
    by decide, by decide, by decide, by decide,
    fun _ _ => rfl, fun _ _ => rfl, fun _ _ => rfl, fun _ _ => rfl,
    fun _ _ => rfl, fun _ _ => rfl, fun _ _ => rfl, fun _ _ => rfl,
    fun _ _ => rfl, fun _ _ => rfl,
    fun ch sc => foldl_addChild_children _ _⟩

/-- C4: the change:min and change:max listeners of IsoColorModel and
ThresholdModel assign only the effect's min or max field; the bound input and
the setInput log are untouched, so no input re-resolution happens. -/
theorem minmax_listeners_pure (q : ℚ) (e : Effect) :
    IsoColorModel.onChangeMin q e = { e with min := q } ∧
    IsoColorModel.onChangeMax q e = { e with max := q } ∧
    ThresholdModel.onChangeMin q e = { e with min := q } ∧
    ThresholdModel.onChangeMax q e = { e with max := q } ∧
    (IsoColorModel.onChangeMin q e).setInputLog = e.setInputLog ∧
    (IsoColorModel.onChangeMax q e).setInputLog = e.setInputLog ∧
    (ThresholdModel.onChangeMin q e).setInputLog = e.setInputLog ∧
    (ThresholdModel.onChangeMax q e).setInputLog = e.setInputLog ∧
    (IsoColorModel.onChangeMin q e).boundInput = e.boundInput ∧
    (ThresholdModel.onChangeMin q e).boundInput = e.boundInput :=
  ⟨rfl, rfl, rfl, rfl, rfl, rfl, rfl, rfl, rfl, rfl⟩

/-- C5: `SceneModel.updateChildren` only appends: the updated scene's children
are exactly the previous children followed by the freshly scaled blocks, so
blocks added by a previous invocation are never removed. -/
theorem updateChildren_append_only (children : List Block) (scene : Scene) :
    (SceneModel.updateChildren children scene).2.children
      = scene.children ++ (SceneModel.updateChildren children scene).1 :=
  foldl_addChild_children _ _

/-- C6: deserialization produces a typed view over the received byte buffer
without copying - the view's underlying buffer is the payload's own
`data.data.buffer` - and the serializer tables view vertex and field arrays as
float32 and triangle/tetrahedron index arrays as uint32. -/
theorem typed_views_share_buffer :
    (∀ d : WireData, (deserialize_float32array d).buffer = d.data.buffer
        ∧ (deserialize_float32array d).kind = TypedArrayKind.float32) ∧
    (∀ d : WireData, (deserialize_uint32array d).buffer = d.data.buffer
        ∧ (deserialize_uint32array d).kind = TypedArrayKind.uint32) ∧
    bufferDeserializer ModelClass.component "array"
      = some deserialize_float32array ∧
    bufferDeserializer ModelClass.polyMesh "vertices"
      = some deserialize_float32array ∧
    bufferDeserializer ModelClass.polyMesh "triangle_indices"
      = some deserialize_uint32array ∧
    bufferDeserializer ModelClass.tetraMesh "triangle_indices"
      = some deserialize_uint32array ∧
    bufferDeserializer ModelClass.tetraMesh "tetrahedron_indices"
      = some deserialize_uint32array :=
  ⟨fun _ => ⟨rfl, rfl⟩, fun _ => ⟨rfl, rfl⟩, rfl, rfl, rfl, rfl, rfl⟩

/-- C7: `TetraMeshModel.createBlock` constructs the TetraMesh with both the
triangleIndices (visible surface) and tetrahedronIndices (volumetric
connectivity) arrays taken directly from the model's attributes; the surface
triangulation is supplied, not derived. -/
theorem tetraMesh_indices_from_attributes (m : TetraMeshAttributes) :
    (TetraMeshModel.createBlock m).triangleIndices = m.triangle_indices ∧
    (TetraMeshModel.createBlock m).tetrahedronIndices
      = m.tetrahedron_indices ∧
    (TetraMeshModel.createBlock m).vertices = m.vertices :=
  ⟨rfl, rfl, rfl⟩

/-- C8: in the execution order of `SceneView.render`, the renderer is
initialized exactly once, strictly after the displayed promise resolves, and
only after initialization are the background color applied and the resize and
background-color listeners installed. -/
theorem renderer_init_after_displayed :
    SceneView.renderTrace.count RenderEvent.rendererInitialize = 1 ∧
    SceneView.renderTrace.indexOf RenderEvent.displayedResolved
      < SceneView.renderTrace.indexOf RenderEvent.rendererInitialize ∧
    SceneView.renderTrace.indexOf RenderEvent.rendererInitialize
      < SceneView.renderTrace.indexOf RenderEvent.setBackgroundColor ∧
    SceneView.renderTrace.indexOf RenderEvent.rendererInitialize
      < SceneView.renderTrace.indexOf RenderEvent.installResizeListener ∧
    SceneView.renderTrace.indexOf RenderEvent.rendererInitialize
      < SceneView.renderTrace.indexOf RenderEvent.installBackgroundColorListener := by
  decide

/-- C9: the input value passed to the core effect, at construction and on
every input change, is the raw attribute when it is a string and otherwise a
one-element array wrapping the whole attribute value; a list selector such as
[u, v, w] is wrapped whole, never flattened. -/
theorem effect_input_wrapped :
    (∀ s, effectInputGetter (RawInput.str s) = InputValue.str s) ∧
    (∀ l, effectInputGetter (RawInput.strList l)
        = InputValue.arr [RawInput.strList l]) ∧
    effectInputGetter (RawInput.strList ["u", "v", "w"])
      = InputValue.arr [RawInput.strList ["u", "v", "w"]] ∧
    (∀ p raw mn mx, (IsoColorModel.createBlock p raw mn mx).boundInput
        = some (effectInputGetter raw)) ∧
    (∀ p raw v, (IsoSurfaceModel.createBlock p raw v).boundInput
        = some (effectInputGetter raw)) ∧
    (∀ p raw mn mx, (ThresholdModel.createBlock p raw mn mx).boundInput
        = some (effectInputGetter raw)) ∧
    (∀ raw e, IsoColorModel.updateInput raw e
        = EffectModel.updateInput (effectInputGetter raw) e) :=
  ⟨fun _ => rfl, fun _ => rfl, rfl, fun _ _ _ _ => rfl, fun _ _ _ => rfl,
   fun _ _ _ _ => rfl, fun _ _ => rfl⟩

/-- C10: at model initialization only the default_color attribute is applied
to the created block; default_alpha is left as constructed and is committed
only by the change:default_alpha listener. -/
theorem initialize_applies_only_color (attrs : BlockAttributes) (b : Block) :
    (BlockModel.initializeBlock attrs b).defaultColor = attrs.default_color ∧
    (BlockModel.initializeBlock attrs b).defaultAlpha = b.defaultAlpha ∧
    (∀ q c, (BlockModel.onChangeDefaultAlpha q c).defaultAlpha = q) :=
  ⟨rfl, rfl, fun _ _ => rfl⟩

end Odysis
